import Mathlib

/-!
Verification of the console gesture-detection system.

The definitions below are a shallow embedding of the Python sources:
`ConsoleGestureSystem` in `deepseek_python_20251113_9458e1.py` (the main
console system: classifier, streak/confirmation engine, frame scheduler,
dispatcher, fps accounting) and the variant classifier `detect_gesture`
in `final.py`.  Floating-point coordinates are modelled by rationals;
the `try/except` around landmark access is modelled by `Option` lookups.
-/

namespace GestureRec

/-- Landmark: one MediaPipe pose point with normalized coordinates.
Corresponds to the `.x`, `.y`, `.z` attributes read by the classifier. -/
structure Landmark where
  x : ℚ
  y : ℚ
  z : ℚ
deriving DecidableEq

/-- GestureSymbol: the five gesture strings produced by `detect_gesture`
in `deepseek_python_20251113_9458e1.py`. -/
inductive GestureSymbol where
  | NO_GESTURE
  | LEFT_HAND_UP
  | RIGHT_HAND_UP
  | BOTH_HANDS_UP
  | CROSSED_ARMS
deriving DecidableEq

/- MediaPipe pose-landmark indices used by the classifiers
(`mp_pose.PoseLandmark.*.value`). -/
namespace PoseLandmark

def LEFT_SHOULDER : Nat := 11

def RIGHT_SHOULDER : Nat := 12

def LEFT_ELBOW : Nat := 13

def RIGHT_ELBOW : Nat := 14

def LEFT_WRIST : Nat := 15

def RIGHT_WRIST : Nat := 16

end PoseLandmark

/-- Threshold configuration set in `ConsoleGestureSystem.__init__`:
`self.raise_threshold` and `self.cross_threshold`. -/
structure Config where
  raise_threshold : ℚ
  cross_threshold : ℚ
deriving DecidableEq

/-- The values assigned in `__init__`: `raise_threshold = 0.05`,
`cross_threshold = 0.15`. -/
def defaultConfig : Config :=
  { raise_threshold := 0.05, cross_threshold := 0.15 }

/-- ConsoleGestureSystem.is_hand_raised (lines 69-85):
`wrist_above_shoulder = wrist_y < (shoulder_y - self.raise_threshold)`;
`wrist_above_elbow = wrist_y < (elbow_y - self.raise_threshold)`;
returns the conjunction. -/
def is_hand_raised (cfg : Config) (shoulder_y wrist_y elbow_y : ℚ) : Bool :=
  let wrist_above_shoulder := decide (wrist_y < shoulder_y - cfg.raise_threshold)
  let wrist_above_elbow := decide (wrist_y < elbow_y - cfg.raise_threshold)
  wrist_above_shoulder && wrist_above_elbow

/-- ConsoleGestureSystem.detect_gesture (lines 87-131).  The landmark frame
is a list; an index that is out of range raises in Python and is caught by
the `except` clause, which returns `"NO_GESTURE"`; here the `Option`
lookups play the role of the `try/except`.  The branch order is exactly
the source order: both-hands first, then crossed arms, then single hands. -/
def detect_gesture (cfg : Config) (landmarks : List Landmark) : GestureSymbol :=
  match landmarks[PoseLandmark.LEFT_SHOULDER]?, landmarks[PoseLandmark.RIGHT_SHOULDER]?,
      landmarks[PoseLandmark.LEFT_WRIST]?, landmarks[PoseLandmark.RIGHT_WRIST]?,
      landmarks[PoseLandmark.LEFT_ELBOW]?, landmarks[PoseLandmark.RIGHT_ELBOW]? with
  | some left_shoulder, some right_shoulder, some left_wrist, some right_wrist,
      some left_elbow, some right_elbow =>
    let left_raised := is_hand_raised cfg left_shoulder.y left_wrist.y left_elbow.y
    let right_raised := is_hand_raised cfg right_shoulder.y right_wrist.y right_elbow.y
    if left_raised && right_raised then
      .BOTH_HANDS_UP
    else
      let left_crossed := decide (|left_wrist.x - right_shoulder.x| < cfg.cross_threshold)
      let right_crossed := decide (|right_wrist.x - left_shoulder.x| < cfg.cross_threshold)
      if left_crossed && right_crossed then
        .CROSSED_ARMS
      else if left_raised then
        .LEFT_HAND_UP
      else if right_raised then
        .RIGHT_HAND_UP
      else
        .NO_GESTURE
  | _, _, _, _, _, _ => .NO_GESTURE

/-- The mutable counters of `ConsoleGestureSystem` that the tick loop
touches: `self.frame_count`, `self.last_gesture`, `self.gesture_streak`. -/
structure SysState where
  frame_count : ℕ
  last_gesture : GestureSymbol
  gesture_streak : ℕ
deriving DecidableEq

/-- The `__init__` values: `frame_count = 0`, `last_gesture = "NO_GESTURE"`,
`gesture_streak = 0`. -/
def initState : SysState :=
  { frame_count := 0, last_gesture := .NO_GESTURE, gesture_streak := 0 }

/-- ConsoleGestureSystem.update_gesture_streak (lines 205-222): if the
current gesture equals `self.last_gesture` the streak is incremented,
otherwise the streak is reset to 1 and `self.last_gesture` is replaced. -/
def update_gesture_streak (s : SysState) (current_gesture : GestureSymbol) : SysState :=
  if current_gesture = s.last_gesture then
    { s with gesture_streak := s.gesture_streak + 1 }
  else
    { s with gesture_streak := 1, last_gesture := current_gesture }

/-- ConsoleGestureSystem.process_frame (lines 182-203): when MediaPipe
reports no pose landmarks the gesture is `"NO_GESTURE"`, otherwise the
landmarks are classified. -/
def process_frame (cfg : Config) (pose_landmarks : Option (List Landmark)) : GestureSymbol :=
  match pose_landmarks with
  | none => .NO_GESTURE
  | some landmarks => detect_gesture cfg landmarks

/-- The confirmation step of `run` (lines 262-267):
`confirmed_gesture = current_gesture if confidence_streak >= 3 else "NO_GESTURE"`,
and `handle_gesture_command` is called iff
`confirmed_gesture != "NO_GESTURE" and confidence_streak == 3`.
`some g` means the command `g` is dispatched on this frame. -/
def fireDecision (current_gesture : GestureSymbol) (confidence_streak : ℕ) :
    Option GestureSymbol :=
  let confirmed_gesture := if 3 ≤ confidence_streak then current_gesture else .NO_GESTURE
  if confirmed_gesture ≠ .NO_GESTURE ∧ confidence_streak = 3 then some confirmed_gesture
  else none

/-- What the camera gives one iteration of the `while True` loop in `run`:
either `self.cap.read()` fails, or a frame arrives and MediaPipe returns
an optional landmark list. -/
inductive TickEvent where
  | readFail
  | frame (pose_landmarks : Option (List Landmark))

/-- Control flow taken by one iteration of the loop in `run`:
`terminated` is the `break` on a failed read, `skipped` is the
`continue` of the every-2nd-frame throttle, `processed` is a fully
executed tick together with the command dispatched on it (if any). -/
inductive TickOutcome where
  | terminated
  | skipped
  | processed (fired : Option GestureSymbol)
deriving DecidableEq

/-- One iteration of the `while True` loop in `run` (lines 237-270):
read; on failure print and `break`; else `self.frame_count += 1`; skip
odd counts (`continue`); else classify, update the streak, and fire the
confirmation decision. -/
def tick (cfg : Config) (s : SysState) (ev : TickEvent) : SysState × TickOutcome :=
  match ev with
  | .readFail => (s, .terminated)
  | .frame pose_landmarks =>
    let s1 : SysState := { s with frame_count := s.frame_count + 1 }
    if s1.frame_count % 2 ≠ 0 then
      (s1, .skipped)
    else
      let current_gesture := process_frame cfg pose_landmarks
      let s2 := update_gesture_streak s1 current_gesture
      (s2, .processed (fireDecision current_gesture s2.gesture_streak))

/-- Feeding a list of admitted-frame symbols to the confirmation engine
from state `s`: the per-frame fire decisions, in order.  Each frame does
`update_gesture_streak` followed by the firing test of `run`. -/
def runFires (s : SysState) : List GestureSymbol → List (Option GestureSymbol)
  | [] => []
  | g :: rest =>
    let s1 := update_gesture_streak s g
    fireDecision g s1.gesture_streak :: runFires s1 rest

/-- The fire decisions for a symbol sequence starting from the `__init__`
state. -/
def fireList (gs : List GestureSymbol) : List (Option GestureSymbol) :=
  runFires initState gs

/-- Length of the leading constant run of symbol `a` in a list.  Applied
to the reversed history it measures the current unbroken streak. -/
def leadRun (a : GestureSymbol) : List GestureSymbol → ℕ
  | [] => 0
  | b :: l => if b = a then leadRun a l + 1 else 0

/-- The confirmation state reached after consuming a reversed symbol
history (head = most recent symbol) starting from base state `s`. -/
def stateRevFrom (s : SysState) : List GestureSymbol → SysState
  | [] => s
  | g :: rest => update_gesture_streak (stateRevFrom s rest) g

/-- ConsoleGestureSystem.calculate_fps (lines 133-137):
`frame_count / elapsed_time if elapsed_time > 0 else 0`. -/
def calculate_fps (frame_count : ℕ) (elapsed_time : ℚ) : ℚ :=
  if 0 < elapsed_time then (frame_count : ℚ) / elapsed_time else 0

/-- The session-summary average in `cleanup` (lines 305-307):
`avg_fps = frame_count / total_time if total_time > 0 else 0`. -/
def session_avg_fps (frame_count : ℕ) (total_time : ℚ) : ℚ :=
  if 0 < total_time then (frame_count : ℚ) / total_time else 0

/-- ActionIntent: the effect of `handle_gesture_command` — turn the
appliance ON, turn it OFF, or do nothing. -/
inductive ActionIntent where
  | ON
  | OFF
  | NONE
deriving DecidableEq

/-- The `on_commands` list in `handle_gesture_command` (line 288). -/
def on_commands : List GestureSymbol := [.BOTH_HANDS_UP, .LEFT_HAND_UP]

/-- The `off_commands` list in `handle_gesture_command` (line 289). -/
def off_commands : List GestureSymbol := [.RIGHT_HAND_UP, .CROSSED_ARMS]

/-- ConsoleGestureSystem.handle_gesture_command (lines 279-294): a pure
mapping from the confirmed gesture to an actuation intent; gestures in
`on_commands` turn ON, gestures in `off_commands` turn OFF, anything
else does nothing.  It reads no state and writes none. -/
def handle_gesture_command (gesture : GestureSymbol) : ActionIntent :=
  if gesture ∈ on_commands then .ON
  else if gesture ∈ off_commands then .OFF
  else .NONE

/-- The result type of `detect_gesture` in `final.py`: on success one of
the gesture strings, on an exception the string `"ERROR: ..."`, which is
not a gesture symbol. -/
inductive FinalOutput where
  | sym (g : GestureSymbol)
  | errorMsg
deriving DecidableEq

/-- The raised test of `detect_gesture` in `final.py` (lines 101-102):
`left_raised = left_wrist.y < left_shoulder.y - 0.05` (and symmetrically
for the right arm).  Note it compares the wrist only against the
shoulder; the elbow is not consulted. -/
def final_hand_raised (shoulder_y wrist_y : ℚ) : Bool :=
  decide (wrist_y < shoulder_y - 0.05)

/-- detect_gesture in `final.py` (lines 93-114): reads shoulders and
wrists only, checks both-hands then left then right, and on an exception
(e.g. a missing landmark index) returns an `"ERROR: ..."` string. -/
def final_detect_gesture (landmarks : List Landmark) : FinalOutput :=
  match landmarks[PoseLandmark.LEFT_SHOULDER]?, landmarks[PoseLandmark.RIGHT_SHOULDER]?,
      landmarks[PoseLandmark.LEFT_WRIST]?, landmarks[PoseLandmark.RIGHT_WRIST]? with
  | some left_shoulder, some right_shoulder, some left_wrist, some right_wrist =>
    let left_raised := final_hand_raised left_shoulder.y left_wrist.y
    let right_raised := final_hand_raised right_shoulder.y right_wrist.y
    if left_raised && right_raised then .sym .BOTH_HANDS_UP
    else if left_raised then .sym .LEFT_HAND_UP
    else if right_raised then .sym .RIGHT_HAND_UP
    else .sym .NO_GESTURE
  | _, _, _, _ => .errorMsg

/-- Appending one more (older) symbol at the far end of a reversed history
commutes with pushing it through the base state. -/
theorem stateRevFrom_append (s : SysState) (m : List GestureSymbol) (a : GestureSymbol) :
    stateRevFrom s (m ++ [a]) = stateRevFrom (update_gesture_streak s a) m := by
  induction m with
  | nil => rfl
  | cons b m ih => simp [stateRevFrom, ih]

/-- Folding the streak engine over a history equals consuming the reversed
history with `stateRevFrom`. -/
theorem foldl_update_eq_stateRevFrom (gs : List GestureSymbol) (s : SysState) :
    gs.foldl update_gesture_streak s = stateRevFrom s gs.reverse := by
  induction gs generalizing s with
  | nil => rfl
  | cons g rest ih => simp [List.foldl_cons, List.reverse_cons, stateRevFrom_append, ih]

/-- After at least one frame, `last_gesture` is the most recent symbol. -/
theorem stateRevFrom_last (g : GestureSymbol) (rest : List GestureSymbol) :
    (stateRevFrom initState (g :: rest)).last_gesture = g := by
  by_cases h : g = (stateRevFrom initState rest).last_gesture <;>
    simp [stateRevFrom, update_gesture_streak, h]

/-- After at least one frame, the streak counter equals the length of the
leading constant run of the reversed history, i.e. the length of the
current unbroken streak. -/
theorem stateRevFrom_streak (rest : List GestureSymbol) :
    ∀ g, (stateRevFrom initState (g :: rest)).gesture_streak = leadRun g (g :: rest) := by
  induction rest with
  | nil =>
    intro g
    show (update_gesture_streak initState g).gesture_streak = leadRun g [g]
    by_cases h : g = GestureSymbol.NO_GESTURE <;>
      simp [update_gesture_streak, initState, leadRun, h]
  | cons r tail ih =>
    intro g
    have hlast : (stateRevFrom initState (r :: tail)).last_gesture = r :=
      stateRevFrom_last r tail
    show (update_gesture_streak (stateRevFrom initState (r :: tail)) g).gesture_streak
        = leadRun g (g :: r :: tail)
    by_cases h : g = r
    · subst h
      simp [update_gesture_streak, hlast, leadRun, ih g]
    · simp [update_gesture_streak, hlast, h, leadRun, Ne.symm h]

/-- The fire decision recorded for frame `i` is the firing test applied to
the symbol of frame `i` and the streak value after that frame. -/
theorem runFires_getD : ∀ (gs : List GestureSymbol) (s : SysState) (i : ℕ), i < gs.length →
    (runFires s gs).getD i none =
      fireDecision (gs.getD i .NO_GESTURE)
        (((gs.take (i+1)).foldl update_gesture_streak s).gesture_streak) := by
  intro gs
  induction gs with
  | nil => intro s i h; simp at h
  | cons g rest ih =>
    intro s i h
    cases i with
    | zero => simp [runFires, List.take_succ_cons, List.foldl_cons]
    | succ j =>
      have hj : j < rest.length := by simpa using h
      simp only [runFires, List.getD_cons_succ, List.take_succ_cons, List.foldl_cons]
      exact ih (update_gesture_streak s g) j hj

/-- Reversing a history truncated after frame `i` exposes the symbol of
frame `i` at the head. -/
theorem reverse_take_succ : ∀ (l : List GestureSymbol) (i : ℕ), i < l.length →
    (l.take (i+1)).reverse = l.getD i .NO_GESTURE :: (l.take i).reverse := by
  intro l
  induction l with
  | nil => intro i h; simp at h
  | cons a tl ih =>
    intro i h
    cases i with
    | zero => simp
    | succ j =>
      have hj : j < tl.length := by simpa using h
      simp [List.take_succ_cons, List.reverse_cons, ih j hj]

/-- The firing test of `run` succeeds exactly for a non-NO_GESTURE symbol
whose streak value is exactly 3. -/
theorem fireDecision_fire_iff (g : GestureSymbol) (n : ℕ) :
    fireDecision g n ≠ none ↔ (g ≠ GestureSymbol.NO_GESTURE ∧ n = 3) := by
  by_cases hn : n = 3 <;> by_cases hg : g = GestureSymbol.NO_GESTURE <;>
    simp [fireDecision, hn, hg]

/-- C5: for every advance step of the confirmation engine, an incoming
symbol equal to the stored last symbol increments the streak by 1 and
leaves the last symbol unchanged; a different incoming symbol (including
transitions into or out of NO_GESTURE) stores the new symbol and resets
the streak to 1. -/
theorem streak_update_rule (s : SysState) (g : GestureSymbol) :
    (g = s.last_gesture →
      update_gesture_streak s g = { s with gesture_streak := s.gesture_streak + 1 })
    ∧ (g ≠ s.last_gesture →
      update_gesture_streak s g = { s with last_gesture := g, gesture_streak := 1 }) := by
  constructor <;> intro h <;> simp [update_gesture_streak, h]

/-- Witness for `streak_update_rule`: a transition out of a gesture into
NO_GESTURE resets the streak to 1 and stores NO_GESTURE. -/
theorem streak_update_rule_witness :
    update_gesture_streak ⟨5, .LEFT_HAND_UP, 2⟩ .NO_GESTURE = ⟨5, .NO_GESTURE, 1⟩ :=
  (streak_update_rule ⟨5, .LEFT_HAND_UP, 2⟩ .NO_GESTURE).2 (by decide)

/-- C9: the dispatcher is a pure mapping from confirmed symbols to
actuation intents: BOTH_HANDS_UP and LEFT_HAND_UP turn ON, RIGHT_HAND_UP
and CROSSED_ARMS turn OFF, NO_GESTURE does nothing.  Statelessness is
structural: `handle_gesture_command` is a function of the symbol alone. -/
theorem dispatch_table :
    handle_gesture_command .BOTH_HANDS_UP = .ON ∧
    handle_gesture_command .LEFT_HAND_UP = .ON ∧
    handle_gesture_command .RIGHT_HAND_UP = .OFF ∧
    handle_gesture_command .CROSSED_ARMS = .OFF ∧
    handle_gesture_command .NO_GESTURE = .NONE := by
  decide

/-- C10: both throughput computations guard the division: they return
`frame_count / elapsed` only when the elapsed time is positive and 0
otherwise, for every frame count and elapsed time. -/
theorem fps_guard (n : ℕ) (t : ℚ) :
    (t ≤ 0 → calculate_fps n t = 0 ∧ session_avg_fps n t = 0)
    ∧ (0 < t → calculate_fps n t = (n : ℚ) / t ∧ session_avg_fps n t = (n : ℚ) / t) := by
  constructor <;> intro h
  · simp [calculate_fps, session_avg_fps, not_lt.mpr h]
  · simp [calculate_fps, session_avg_fps, h]

/-- Witness for `fps_guard`: at elapsed time 0 both computations yield 0. -/
theorem fps_guard_witness : calculate_fps 7 0 = 0 ∧ session_avg_fps 7 0 = 0 :=
  (fps_guard 7 0).1 (le_refl 0)

/-- C3 (counterexample): on a failed camera read the loop does not
continue; the tick takes the `break` path, i.e. the outcome is
`terminated`, not `skipped`. -/
theorem readFail_not_continue :
    (tick defaultConfig initState TickEvent.readFail).2 = TickOutcome.terminated := rfl

/-- C3 (amended): when a camera capture read fails, no classification,
confirmation or dispatch happens for that tick (the state is unchanged),
and the loop terminates via `break` rather than continuing. -/
theorem readFail_terminates_loop (cfg : Config) (s : SysState) :
    tick cfg s TickEvent.readFail = (s, TickOutcome.terminated) := rfl

/-- C6: a captured frame is admitted (fully processed) iff its
post-increment index satisfies `frame_count % 2 == 0`; a rejected frame
only increments the counter and leaves the confirmation state untouched
(neither the classifier nor the streak engine runs), deterministically in
the index alone. -/
theorem frame_admission_parity (cfg : Config) (s : SysState) (pose : Option (List Landmark)) :
    ((∃ r, (tick cfg s (TickEvent.frame pose)).2 = TickOutcome.processed r) ↔
      (s.frame_count + 1) % 2 = 0)
    ∧ ((s.frame_count + 1) % 2 ≠ 0 →
      tick cfg s (TickEvent.frame pose) =
        ({ s with frame_count := s.frame_count + 1 }, TickOutcome.skipped)) := by
  by_cases h : (s.frame_count + 1) % 2 = 0 <;> simp [tick, h]

/-- Witness for `frame_admission_parity`: the first captured frame (index
1, odd) is rejected with only the counter bumped. -/
theorem frame_admission_parity_witness :
    tick defaultConfig initState (TickEvent.frame none) =
      ({ initState with frame_count := 1 }, TickOutcome.skipped) :=
  (frame_admission_parity defaultConfig initState none).2 (by decide)

/-- C1: for every sequence of admitted-frame symbols fed to the
confirmation engine from system start, frame `i` fires a command iff its
symbol differs from NO_GESTURE and the unbroken streak ending at frame
`i` (the leading constant run of the reversed history up to `i`) has
length exactly 3: so a command fires exactly on the frame where the
streak first reaches 3, never again while the streak keeps growing, and
a refire needs the streak broken and re-accumulated to 3. -/
theorem fire_exactly_at_streak_three (gs : List GestureSymbol) (i : ℕ) (h : i < gs.length) :
    (fireList gs).getD i none ≠ none ↔
      (gs.getD i .NO_GESTURE ≠ .NO_GESTURE ∧
        leadRun (gs.getD i .NO_GESTURE) ((gs.take (i+1)).reverse) = 3) := by
  have h1 := runFires_getD gs initState i h
  have h2 := foldl_update_eq_stateRevFrom (gs.take (i+1)) initState
  have h3 := reverse_take_succ gs i h
  simp only [fireList]
  rw [h1, h2, h3, stateRevFrom_streak]
  exact fireDecision_fire_iff _ _

/-- Witness for `fire_exactly_at_streak_three`: three consecutive
LEFT_HAND_UP frames fire on the third frame. -/
theorem fire_exactly_at_streak_three_witness :
    (fireList [GestureSymbol.LEFT_HAND_UP, GestureSymbol.LEFT_HAND_UP,
      GestureSymbol.LEFT_HAND_UP]).getD 2 none ≠ none :=
  (fire_exactly_at_streak_three
    [GestureSymbol.LEFT_HAND_UP, GestureSymbol.LEFT_HAND_UP, GestureSymbol.LEFT_HAND_UP]
    2 (by decide)).mpr (by decide)

/-- C2: whenever both arms satisfy the hand-raised predicate, the
classifier returns BOTH_HANDS_UP; nothing is assumed about the crossed
or single-arm conditions, so the both-hands check shadows them. -/
theorem both_hands_priority (cfg : Config) (lms : List Landmark)
    (left_shoulder right_shoulder left_wrist right_wrist left_elbow right_elbow : Landmark)
    (hls : lms[PoseLandmark.LEFT_SHOULDER]? = some left_shoulder)
    (hrs : lms[PoseLandmark.RIGHT_SHOULDER]? = some right_shoulder)
    (hlw : lms[PoseLandmark.LEFT_WRIST]? = some left_wrist)
    (hrw : lms[PoseLandmark.RIGHT_WRIST]? = some right_wrist)
    (hle : lms[PoseLandmark.LEFT_ELBOW]? = some left_elbow)
    (hre : lms[PoseLandmark.RIGHT_ELBOW]? = some right_elbow)
    (hl : is_hand_raised cfg left_shoulder.y left_wrist.y left_elbow.y = true)
    (hr : is_hand_raised cfg right_shoulder.y right_wrist.y right_elbow.y = true) :
    detect_gesture cfg lms = .BOTH_HANDS_UP := by
  unfold detect_gesture
  rw [hls, hrs, hlw, hrw, hle, hre]
  simp [hl, hr]

/-- A frame in which both wrists are raised AND both wrists are within
the cross threshold of the opposite shoulder (indices 0-10 are padding;
11 = left shoulder, 12 = right shoulder, 13 = left elbow, 14 = right
elbow, 15 = left wrist, 16 = right wrist). -/
def bothRaisedAndCrossedFrame : List Landmark :=
  [⟨0.5, 0.5, 0⟩, ⟨0.5, 0.5, 0⟩, ⟨0.5, 0.5, 0⟩, ⟨0.5, 0.5, 0⟩, ⟨0.5, 0.5, 0⟩,
   ⟨0.5, 0.5, 0⟩, ⟨0.5, 0.5, 0⟩, ⟨0.5, 0.5, 0⟩, ⟨0.5, 0.5, 0⟩, ⟨0.5, 0.5, 0⟩,
   ⟨0.5, 0.5, 0⟩,
   ⟨0.6, 0.5, 0⟩, ⟨0.4, 0.5, 0⟩, ⟨0.6, 0.5, 0⟩, ⟨0.4, 0.5, 0⟩,
   ⟨0.4, 0.2, 0⟩, ⟨0.6, 0.2, 0⟩]

/-- Witness for `both_hands_priority`: on a frame where both wrists are
raised and the crossed-arm condition also holds, the result is still
BOTH_HANDS_UP. -/
theorem both_hands_priority_witness :
    detect_gesture defaultConfig bothRaisedAndCrossedFrame = GestureSymbol.BOTH_HANDS_UP :=
  both_hands_priority defaultConfig bothRaisedAndCrossedFrame
    ⟨0.6, 0.5, 0⟩ ⟨0.4, 0.5, 0⟩ ⟨0.4, 0.2, 0⟩ ⟨0.6, 0.2, 0⟩ ⟨0.6, 0.5, 0⟩ ⟨0.4, 0.5, 0⟩
    rfl rfl rfl rfl rfl rfl
    (by norm_num [is_hand_raised, defaultConfig])
    (by norm_num [is_hand_raised, defaultConfig])

/-- C8: when neither wrist is raised and both wrists lie within the cross
threshold of the opposite shoulder, the classifier returns CROSSED_ARMS. -/
theorem crossed_arms_classification (cfg : Config) (lms : List Landmark)
    (left_shoulder right_shoulder left_wrist right_wrist left_elbow right_elbow : Landmark)
    (hls : lms[PoseLandmark.LEFT_SHOULDER]? = some left_shoulder)
    (hrs : lms[PoseLandmark.RIGHT_SHOULDER]? = some right_shoulder)
    (hlw : lms[PoseLandmark.LEFT_WRIST]? = some left_wrist)
    (hrw : lms[PoseLandmark.RIGHT_WRIST]? = some right_wrist)
    (hle : lms[PoseLandmark.LEFT_ELBOW]? = some left_elbow)
    (hre : lms[PoseLandmark.RIGHT_ELBOW]? = some right_elbow)
    (hl : is_hand_raised cfg left_shoulder.y left_wrist.y left_elbow.y = false)
    (hr : is_hand_raised cfg right_shoulder.y right_wrist.y right_elbow.y = false)
    (hcl : |left_wrist.x - right_shoulder.x| < cfg.cross_threshold)
    (hcr : |right_wrist.x - left_shoulder.x| < cfg.cross_threshold) :
    detect_gesture cfg lms = .CROSSED_ARMS := by
  unfold detect_gesture
  rw [hls, hrs, hlw, hrw, hle, hre]
  simp [hl, hr, hcl, hcr]

/-- A frame with neither wrist raised (wrists below shoulders) and both
wrists over the opposite shoulder. -/
def crossedArmsFrame : List Landmark :=
  [⟨0.5, 0.5, 0⟩, ⟨0.5, 0.5, 0⟩, ⟨0.5, 0.5, 0⟩, ⟨0.5, 0.5, 0⟩, ⟨0.5, 0.5, 0⟩,
   ⟨0.5, 0.5, 0⟩, ⟨0.5, 0.5, 0⟩, ⟨0.5, 0.5, 0⟩, ⟨0.5, 0.5, 0⟩, ⟨0.5, 0.5, 0⟩,
   ⟨0.5, 0.5, 0⟩,
   ⟨0.6, 0.5, 0⟩, ⟨0.4, 0.5, 0⟩, ⟨0.6, 0.5, 0⟩, ⟨0.4, 0.5, 0⟩,
   ⟨0.4, 0.6, 0⟩, ⟨0.6, 0.6, 0⟩]

/-- Witness for `crossed_arms_classification` on a concrete frame. -/
theorem crossed_arms_classification_witness :
    detect_gesture defaultConfig crossedArmsFrame = GestureSymbol.CROSSED_ARMS :=
  crossed_arms_classification defaultConfig crossedArmsFrame
    ⟨0.6, 0.5, 0⟩ ⟨0.4, 0.5, 0⟩ ⟨0.4, 0.6, 0⟩ ⟨0.6, 0.6, 0⟩ ⟨0.6, 0.5, 0⟩ ⟨0.4, 0.5, 0⟩
    rfl rfl rfl rfl rfl rfl
    (by norm_num [is_hand_raised, defaultConfig])
    (by norm_num [is_hand_raised, defaultConfig])
    (by norm_num [defaultConfig])
    (by norm_num [defaultConfig])

/-- C4 (counterexample): the `final.py` classifier, cited by the claim,
does not return NO_GESTURE when a landmark index is missing; on the empty
frame it returns the ERROR string, a value outside the gesture
enumeration. -/
theorem final_classifier_error_output :
    final_detect_gesture [] ≠ FinalOutput.sym GestureSymbol.NO_GESTURE := by decide

/-- C4 (amended): the main console classifier fails closed — whenever any
of the six required landmark lookups is missing (the situation whose
Python counterpart raises and is caught by the except clause), it
returns NO_GESTURE; by its return type it never produces a value outside
the gesture enumeration. -/
theorem classifier_fails_closed (cfg : Config) (lms : List Landmark)
    (h : lms[PoseLandmark.LEFT_SHOULDER]? = none ∨ lms[PoseLandmark.RIGHT_SHOULDER]? = none ∨
      lms[PoseLandmark.LEFT_WRIST]? = none ∨ lms[PoseLandmark.RIGHT_WRIST]? = none ∨
      lms[PoseLandmark.LEFT_ELBOW]? = none ∨ lms[PoseLandmark.RIGHT_ELBOW]? = none) :
    detect_gesture cfg lms = .NO_GESTURE := by
  unfold detect_gesture
  rcases h with h | h | h | h | h | h <;>
    (cases e1 : lms[PoseLandmark.LEFT_SHOULDER]? <;>
     cases e2 : lms[PoseLandmark.RIGHT_SHOULDER]? <;>
     cases e3 : lms[PoseLandmark.LEFT_WRIST]? <;>
     cases e4 : lms[PoseLandmark.RIGHT_WRIST]? <;>
     cases e5 : lms[PoseLandmark.LEFT_ELBOW]? <;>
     cases e6 : lms[PoseLandmark.RIGHT_ELBOW]? <;>
     simp_all)

/-- Witness for `classifier_fails_closed`: the empty frame classifies to
NO_GESTURE. -/
theorem classifier_fails_closed_witness :
    detect_gesture defaultConfig [] = GestureSymbol.NO_GESTURE :=
  classifier_fails_closed defaultConfig [] (Or.inl rfl)

/-- C7 (counterexample): the raised test of `final.py`, cited by the
claim, is not equivalent to the claimed two-comparison predicate: with
shoulder at y 0.5, wrist at y 0.4 and elbow at y 0.2 it reports the hand
raised although the wrist is not above the elbow minus the threshold. -/
theorem final_raised_no_elbow_check :
    ¬ (final_hand_raised 0.5 0.4 = true ↔
      ((0.4 : ℚ) < 0.5 - 0.05 ∧ (0.4 : ℚ) < 0.2 - 0.05)) := by
  norm_num [final_hand_raised]

/-- C7 (amended): for the main console system, `is_hand_raised` holds iff
the wrist is above the shoulder minus the threshold and above the elbow
minus the same threshold; the `final.py` variant omits the elbow
comparison. -/
theorem hand_raised_iff (cfg : Config) (shoulder_y wrist_y elbow_y : ℚ) :
    is_hand_raised cfg shoulder_y wrist_y elbow_y = true ↔
      (wrist_y < shoulder_y - cfg.raise_threshold ∧
        wrist_y < elbow_y - cfg.raise_threshold) := by
  simp [is_hand_raised]

end GestureRec
